import Mathlib

/-!
Shallow embedding of `TimeInterpolator`
(frameworks/av/media/libstagefright/TimeInterpolator.cpp and its header).

Modelling conventions:
  * `int64_t` values are modelled as `ℤ` (the values handled here are
    microsecond counts, far below 2^63, so wrap-around never occurs in the
    scenarios the claims address).
  * the `double m_Tf` and the intermediate `double` expressions of
    `post_buffer` / `get_stream_usecs` are modelled as exact rationals `ℚ`.
    A rational `q` is the pair `q.num / q.den` with `q.den > 0`; products
    and quotients of `double`s are written out on numerators and
    denominators so that every definition evaluates by kernel reduction.
  * C++ `int64_t` division (`m_latency / 2`, `frame_usecs / 4`) and the
    conversion of a `double` to an `int64_t` truncate toward zero:
    modelled by `Int.tdiv`.
  * `1.0 - e / m_latency` is modelled as `Rat.divInt (latency - e) latency`,
    which equals `1 - e / latency` whenever `latency ≠ 0` (the class keeps
    `m_latency` positive; `set_latency` rejects non-positive values).
  * the monotonic clock `get_system_usecs()` is an external input: every
    operation takes the current wall-clock value `now : ℤ` explicitly.
    Calls made at distinct program points inside one operation (the second
    `get_system_usecs()` inside `err_overrun`) are modelled with the same
    `now`, as the claims all quantify over a single instant per call.
  * the mutex and all logging (`ALOGV`/`ALOGE`/`ALOGW`) have no state
    effect and are dropped; `set_state` only assigns `m_state` (its body is
    logging-only error checking).
-/

namespace TimeInterpolator

/-- `state_t` from TimeInterpolator.h. -/
inductive state_t where
  | STOPPED
  | ROLLING
  | PAUSED
deriving DecidableEq

open state_t

/-- The member variables of `class TimeInterpolator` (TimeInterpolator.h). -/
structure TI where
  state : state_t
  Tf : ℚ
  t0 : ℤ
  pos0 : ℤ
  read : ℤ
  queued : ℤ
  latency : ℤ
  last : ℤ
  now_last : ℤ
deriving DecidableEq

/-- C++ signed 64-bit division truncates toward zero. -/
def cppDiv (a b : ℤ) : ℤ := Int.tdiv a b

/-- The `double` constant `.5` of the clamping step. -/
def half : ℚ := Rat.divInt 1 2

/-- `DEFAULT_AUDIO_LATENCY` = 20000 * 4 * 2 = 160 000 µs. -/
def DEFAULT_AUDIO_LATENCY : ℤ := 20000 * 4 * 2

/-- `TimeInterpolator::set_latency`. -/
def set_latency (lat_usecs : ℤ) (s : TI) : TI :=
  if 0 < lat_usecs then { s with latency := lat_usecs }
  else { s with latency := DEFAULT_AUDIO_LATENCY }

/-- `TimeInterpolator::read_pointer` (header, inline): `m_read + m_queued`. -/
def read_pointer (s : TI) : ℤ := s.read + s.queued

/-- `TimeInterpolator::seek`, with the clock value passed explicitly. -/
def seek (now media_time : ℤ) (s : TI) : TI :=
  if s.state = STOPPED ∨ s.state = PAUSED then
    { s with pos0 := media_time, read := media_time, queued := 0,
             t0 := now, Tf := 0, last := media_time, now_last := 0 }
  else
    { s with read := media_time, pos0 := media_time - s.latency, queued := 0,
             t0 := now, Tf := 1, last := media_time - s.latency, now_last := 0 }

/-- `TimeInterpolator::pause`.  When `flushing_fifo` the state is set to
STOPPED and, only when `m_read + m_queued ≥ 0`, `seek(m_read + m_queued)`
runs afterwards (the source guards the call with `if (seek_to >= 0)`). -/
def pause (flushing_fifo : Bool) (now : ℤ) (s : TI) : TI :=
  if flushing_fifo then
    let s1 := { s with state := STOPPED }
    let seek_to := s.read + s.queued
    if 0 ≤ seek_to then seek now seek_to s1 else s1
  else if s.state = ROLLING then
    { s with state := PAUSED, read := s.read + s.queued, pos0 := s.last,
             t0 := now, queued := 0 }
  else s

/-- `TimeInterpolator::stop` is literally `pause(true)`. -/
def stop (now : ℤ) (s : TI) : TI := pause true now s

/-- `TimeInterpolator::resume`: sets `m_t0 = now` and `m_Tf = 1.0`
unconditionally (a non-PAUSED state only triggers a log line). -/
def resume (now : ℤ) (s : TI) : TI := { s with t0 := now, Tf := 1 }

/-- `TimeInterpolator::reset`: `stop()` then `seek(0)`. -/
def reset (now : ℤ) (s : TI) : TI := seek now 0 (stop now s)

/-- `TimeInterpolator::err_underrun` (mutex already held):
`m_Tf = 0; m_read += m_queued; m_pos0 = m_read; m_queued = 0;` then
STOPPED. -/
def err_underrun (s : TI) : TI :=
  { s with Tf := 0, read := s.read + s.queued, pos0 := s.read + s.queued,
           queued := 0, state := STOPPED }

/-- `TimeInterpolator::err_overrun` (mutex already held): when ROLLING,
`m_pos0 = m_read - m_latency; m_t0 = get_system_usecs()`. -/
def err_overrun (now : ℤ) (s : TI) : TI :=
  if s.state = ROLLING then { s with pos0 := s.read - s.latency, t0 := now }
  else s

/-- `TimeInterpolator::forcibly_update_read_pointer`. -/
def forcibly_update_read_pointer (rp : ℤ) (s : TI) : TI :=
  { s with read := rp - s.queued }

/-- `TimeInterpolator::get_stream_usecs`: returns the reported media time
and the successor state.  Mirrors the source: PAUSED returns `m_pos0` and
touches nothing; otherwise `dt = m_Tf * (now - m_t0)` (a `double`), clamped
at `0` from below, and `t_media = m_pos0 + int64(dt)`.  With
`d = now - m_t0`, the clamped `dt` is the rational
`max (m_Tf.num * d) 0 / m_Tf.den` (the denominator is positive, so the
sign of `dt` is the sign of `m_Tf.num * d`) and its truncation is computed
by `Int.tdiv`.  If `t_media >= read_pointer()` while ROLLING, `t_media` is
clamped to `read_pointer()` and `err_underrun()` runs; finally
`m_last`/`m_now_last` are recorded. -/
def get_stream_usecs (now : ℤ) (s : TI) : ℤ × TI :=
  if s.state = PAUSED then (s.pos0, s)
  else
    let t_media : ℤ :=
      s.pos0 + Int.tdiv (max (s.Tf.num * (now - s.t0)) 0) (s.Tf.den : ℤ)
    if read_pointer s ≤ t_media ∧ s.state = ROLLING then
      let t2 := read_pointer s
      let s2 := err_underrun s
      (t2, { s2 with last := t2, now_last := now })
    else
      (t_media, { s with last := t_media, now_last := now })

/-- The value `pos1` of the feedback step of `post_buffer`:
`pos1 = m_pos0 + m_Tf * dt`, a `double` truncated into an `int64_t`.
With `m_Tf = num / den` (`den > 0`) this is the truncation of
`(m_pos0 * den + num * dt) / den`. -/
def pos1_of (now : ℤ) (s : TI) : ℤ :=
  Int.tdiv (s.pos0 * (s.Tf.den : ℤ) + s.Tf.num * (now - s.t0)) (s.Tf.den : ℤ)

/-- The error term `e = pos1 - pos1_desired` of the feedback step, where
`pos1_desired = (m_read + m_queued) - m_latency` (`m_read` has already
absorbed `m_queued` when `e` is computed).  The source keeps `e` in a
`double`, but its value is an integer. -/
def err_of (now : ℤ) (s : TI) : ℤ :=
  pos1_of now s - (s.read + s.queued - s.latency)

/-- The raw (pre-clamp) time factor of the feedback step:
`Tf = 1.0 - e / m_latency`, written as the single fraction
`(m_latency - e) / m_latency`. -/
def Tf_raw (now : ℤ) (s : TI) : ℚ :=
  Rat.divInt (s.latency - err_of now s) s.latency

/-- The aggregation guard of `post_buffer`: taken when the state on entry
to the main logic is ROLLING (a PAUSED entry has already been switched to
ROLLING by then; a STOPPED entry has already returned) and
`dt < frame_usecs / 4`. -/
def takes_aggregation (now frame_usecs : ℤ) (s : TI) : Prop :=
  s.state ≠ STOPPED ∧ now - s.t0 < cppDiv frame_usecs 4

instance (now frame_usecs : ℤ) (s : TI) :
    Decidable (takes_aggregation now frame_usecs s) :=
  inferInstanceAs (Decidable (_ ∧ _))

/-- `TimeInterpolator::post_buffer`.  Faithful to the source:

* STOPPED (cold start): `initial_offset = m_latency / 2` raised to at least
  40 000; `m_t0 = now`; ROLLING; `m_read += frame_usecs`;
  `m_pos0 = m_read - initial_offset`; `m_queued = 0`; `m_Tf = 1.0`; return.
* PAUSED: switch to ROLLING and raise `set_Tf_to_unity`.
* Aggregation guard: if (now ROLLING and) `dt < frame_usecs / 4`,
  `m_queued += frame_usecs` and return.
* Feedback step: `m_read += m_queued`; `pos1 = m_pos0 + m_Tf * dt`;
  `e = pos1 - (m_read - m_latency)`; `m_Tf = 1.0 - e / m_latency` (forced
  to `1.0` under `set_Tf_to_unity`); `m_pos0 = pos1`; `m_t0 = t1`;
  `m_queued = frame_usecs`; clamp: if `m_Tf >= 2.0` set `m_Tf = 2.0` and
  call `err_overrun()`, else if `m_Tf < .5` set `m_Tf = .5`; finally if
  `m_pos0 >= m_read` call `err_underrun()`. -/
def post_buffer (now frame_usecs : ℤ) (s : TI) : TI :=
  if s.state = STOPPED then
    let initial_offset := max (cppDiv s.latency 2) 40000
    { s with t0 := now, state := ROLLING, read := s.read + frame_usecs,
             pos0 := s.read + frame_usecs - initial_offset, queued := 0,
             Tf := 1 }
  else
    let set_Tf_to_unity := s.state = PAUSED
    let s1 := { s with state := ROLLING }
    if s1.state = ROLLING ∧ now - s1.t0 < cppDiv frame_usecs 4 then
      { s1 with queued := s1.queued + frame_usecs }
    else
      let pos1 : ℤ := pos1_of now s1
      let Tf1 : ℚ := if set_Tf_to_unity then 1 else Tf_raw now s1
      let s2 := { s1 with read := s1.read + s1.queued, pos0 := pos1,
                          t0 := now, queued := frame_usecs, Tf := Tf1 }
      let s3 :=
        if 2 ≤ s2.Tf then err_overrun now { s2 with Tf := 2 }
        else if s2.Tf < half then { s2 with Tf := half }
        else s2
      if s3.read ≤ s3.pos0 then err_underrun s3 else s3

/-- The state built by the constructor: `m_state = STOPPED`,
`m_latency = DEFAULT_AUDIO_LATENCY`, then `seek(0)` (which pins every
remaining field). -/
def initState (now : ℤ) : TI :=
  seek now 0
    { state := STOPPED, Tf := 0, t0 := now, pos0 := 0, read := 0,
      queued := 0, latency := DEFAULT_AUDIO_LATENCY, last := 0,
      now_last := 0 }

/-- The spec's scenario S1 start: a fresh object with `set_latency(100000)`
applied. -/
def coldInit : TI := set_latency 100000 (initState 0)

/-- The state after S1: `post_buffer(20000)` on `coldInit` at wall time 0. -/
def afterS1 : TI := post_buffer 0 20000 coldInit

/-- The `.5` clamping constant is one half. -/
theorem half_eq : half = 1 / 2 := by
  rw [half, Rat.divInt_eq_div]; norm_num

/-- Claim C2: a `post_buffer(f)` in state STOPPED performs exactly the
cold-start update: ROLLING, `read += f`,
`pos0 = read - max(latency / 2, 40000)`, `queued = 0`, `Tf = 1`,
`t0 = now`, and nothing else changes (the feedback step does not run). -/
theorem post_buffer_cold_start (s : TI) (now f : ℤ)
    (hst : s.state = STOPPED) (_hf : 0 ≤ f) :
    post_buffer now f s =
      { state := ROLLING, Tf := 1, t0 := now,
        pos0 := s.read + f - max (cppDiv s.latency 2) 40000,
        read := s.read + f, queued := 0, latency := s.latency,
        last := s.last, now_last := s.now_last } := by
  obtain ⟨st, Tf, t0, pos0, read, queued, lat, last, nl⟩ := s
  subst hst
  simp [post_buffer]

/-- Claim C2, witnessed on the S1 scenario: from the initial state with
latency 100 000, `post_buffer(20000)` at wall time 0 yields ROLLING,
`read = 20000`, `pos0 = -30000`, `Tf = 1`, `queued = 0`. -/
theorem post_buffer_cold_start_witness :
    post_buffer 0 20000 coldInit =
      { state := ROLLING, Tf := 1, t0 := 0, pos0 := -30000, read := 20000,
        queued := 0, latency := 100000, last := 0, now_last := 0 } := by
  have h := post_buffer_cold_start coldInit 0 20000 (by decide) (by decide)
  rw [h]; decide

/-- Claim C7: `stop()` is `pause(true)`: from any state and clock value the
two calls produce the same state, field for field. -/
theorem stop_eq_pause_true (s : TI) (now : ℤ) :
    stop now s = pause true now s := rfl

/-- Claim C9: `seek(m)` immediately followed by `seek(m)` (same clock, no
intervening call) produces the state of the first `seek(m)` alone, from
every state. -/
theorem seek_idempotent (s : TI) (now m : ℤ) :
    seek now m (seek now m s) = seek now m s := by
  obtain ⟨st, Tf, t0, pos0, read, queued, lat, last, nl⟩ := s
  cases st <;> simp [seek]

/-- Claim C10: `resume()` sets `t0 = now` and `Tf = 1.0` and changes no
other field, from every state (also non-PAUSED ones, where the source only
adds an error log). -/
theorem resume_sets_t0_and_Tf (s : TI) (now : ℤ) :
    resume now s = { s with t0 := now, Tf := 1 } := rfl

/-- Claim C8: while ROLLING, a `post_buffer(f)` with `now - t0 < f / 4`
(C++ truncating division) only adds `f` to `queued`; a second such rapid
call accumulates as well, so both `f`s land in `queued` and no other field
(epoch included) moves. -/
theorem post_buffer_aggregation (s : TI) (f1 f2 now1 now2 : ℤ)
    (hst : s.state = ROLLING)
    (h1 : now1 - s.t0 < cppDiv f1 4)
    (h2 : now2 - s.t0 < cppDiv f2 4) :
    post_buffer now1 f1 s = { s with queued := s.queued + f1 } ∧
    post_buffer now2 f2 (post_buffer now1 f1 s) =
      { s with queued := s.queued + f1 + f2 } := by
  obtain ⟨st, Tf, t0, pos0, read, queued, lat, last, nl⟩ := s
  subst hst
  simp only [post_buffer] at *
  constructor
  · simp [h1]
  · simp [h1, h2, add_assoc]

/-- Claim C8, witnessed: with latency 100 000 and a running stream
(state after S1), two `post_buffer(40000)` calls at 5 000 µs and 6 000 µs
past the epoch (both below 40000/4 = 10 000) each land in `queued`. -/
theorem post_buffer_aggregation_witness :
    post_buffer 5000 40000 afterS1 =
      { afterS1 with queued := afterS1.queued + 40000 } ∧
    post_buffer 6000 40000 (post_buffer 5000 40000 afterS1) =
      { afterS1 with queued := afterS1.queued + 40000 + 40000 } :=
  post_buffer_aggregation afterS1 40000 40000 5000 6000 (by decide)
    (by decide) (by decide)

/-- Claim C5 (amended): `pause(true)` from any state with
`read + queued ≥ 0` moves to STOPPED and then seeks to `read + queued`:
afterwards `pos0 = read = last = ` the old `read + queued`, `queued = 0`,
`Tf = 0`, `t0 = now`.  (For `read + queued < 0` the source skips the seek:
see the counterexample.) -/
theorem pause_flush_seeks (s : TI) (now : ℤ)
    (h : 0 ≤ s.read + s.queued) :
    pause true now s =
      { state := STOPPED, Tf := 0, t0 := now, pos0 := s.read + s.queued,
        read := s.read + s.queued, queued := 0, latency := s.latency,
        last := s.read + s.queued, now_last := 0 } := by
  obtain ⟨st, Tf, t0, pos0, read, queued, lat, last, nl⟩ := s
  simp only [pause, seek] at *
  simp [h]

/-- Claim C5, witnessed: `pause(true)` at clock 7 on the state after S1
(`read + queued = 20000 ≥ 0`) re-pins everything at 20 000. -/
theorem pause_flush_seeks_witness :
    pause true 7 afterS1 =
      { state := STOPPED, Tf := 0, t0 := 7, pos0 := afterS1.read + afterS1.queued,
        read := afterS1.read + afterS1.queued, queued := 0,
        latency := afterS1.latency, last := afterS1.read + afterS1.queued,
        now_last := 0 } :=
  pause_flush_seeks afterS1 7 (by decide)

/-- Claim C5, counterexample: from a reachable ROLLING state with
`read + queued = -1 < 0` (obtained by `seek(-1)` while ROLLING),
`pause(true)` sets STOPPED but performs no seek: `Tf` stays `1` (the claim
demands `Tf = 0`) and `t0` stays `5` (the claim demands `t0 = now = 7`). -/
theorem pause_flush_counterexample :
    (pause true 7 (seek 5 (-1) (post_buffer 0 20000 (initState 0)))).Tf = 1 ∧
    ¬ (pause true 7 (seek 5 (-1) (post_buffer 0 20000 (initState 0)))).Tf = 0 ∧
    (pause true 7 (seek 5 (-1) (post_buffer 0 20000 (initState 0)))).t0 = 5 ∧
    ¬ (pause true 7 (seek 5 (-1) (post_buffer 0 20000 (initState 0)))).t0 = 7 := by
  decide

/-- Claim C6: after `pause(false)` from ROLLING the state is PAUSED with
`pos0` pinned to the last reported time, and every `get_stream_usecs` call
returns `pos0` and returns the state unchanged — so repeated queries all
return the same value. -/
theorem pause_freezes_clock (s : TI) (now now2 : ℤ)
    (hst : s.state = ROLLING) :
    (pause false now s).state = PAUSED ∧
    (pause false now s).pos0 = s.last ∧
    get_stream_usecs now2 (pause false now s) =
      ((pause false now s).pos0, pause false now s) := by
  obtain ⟨st, Tf, t0, pos0, read, queued, lat, last, nl⟩ := s
  subst hst
  simp [pause, get_stream_usecs]

/-- Claim C6, witnessed on the state after S1, pausing at clock 50 and
querying at clock 8 000 000. -/
theorem pause_freezes_clock_witness :
    (pause false 50 afterS1).state = PAUSED ∧
    (pause false 50 afterS1).pos0 = afterS1.last ∧
    get_stream_usecs 8000000 (pause false 50 afterS1) =
      ((pause false 50 afterS1).pos0, pause false 50 afterS1) :=
  pause_freezes_clock afterS1 50 8000000 (by decide)

/-- The truncation computed by `get_stream_usecs` dominates the floor of
`Tf * max(now - t0, 0)`: the code clamps the product `Tf * d` at zero, the
spec's reading clamps `d` at zero; for a non-negative result the truncation
is a floor, and clamping the product can only be larger. -/
theorem floor_le_tdiv (Tf : ℚ) (d : ℤ) :
    ⌊Tf * ((max d 0 : ℤ) : ℚ)⌋ ≤ Int.tdiv (max (Tf.num * d) 0) (Tf.den : ℤ) := by
  have hA : (0 : ℤ) ≤ max (Tf.num * d) 0 := le_max_right _ _
  have hden : (0 : ℤ) < (Tf.den : ℤ) := by exact_mod_cast Tf.den_pos
  rw [Int.tdiv_eq_ediv hA (le_of_lt hden), Int.le_ediv_iff_mul_le hden]
  have key : Tf.num * max d 0 ≤ max (Tf.num * d) 0 := by
    rcases le_total 0 d with hd | hd
    · rw [max_eq_left hd]
      exact le_max_left _ _
    · rw [max_eq_right hd]
      simp
  refine le_trans ?_ key
  have hq : (⌊Tf * ((max d 0 : ℤ) : ℚ)⌋ : ℚ) * ((Tf.den : ℤ) : ℚ) ≤
      ((Tf.num : ℚ)) * ((max d 0 : ℤ) : ℚ) := by
    have h1 : (⌊Tf * ((max d 0 : ℤ) : ℚ)⌋ : ℚ) ≤ Tf * ((max d 0 : ℤ) : ℚ) :=
      Int.floor_le _
    have hdq : (0 : ℚ) ≤ ((Tf.den : ℤ) : ℚ) := by positivity
    calc (⌊Tf * ((max d 0 : ℤ) : ℚ)⌋ : ℚ) * ((Tf.den : ℤ) : ℚ)
        ≤ (Tf * ((max d 0 : ℤ) : ℚ)) * ((Tf.den : ℤ) : ℚ) :=
          mul_le_mul_of_nonneg_right h1 hdq
      _ = ((Tf.den : ℚ) * Tf) * ((max d 0 : ℤ) : ℚ) := by
          push_cast
          ring
      _ = ((Tf.num : ℚ)) * ((max d 0 : ℤ) : ℚ) := by
          rw [Rat.den_mul_eq_num]
  exact_mod_cast hq

/-- Claim C4: if `get_stream_usecs` runs while ROLLING and the projected
time `pos0 + ⌊Tf * max(now - t0, 0)⌋` has reached `read + queued`, the call
returns exactly the old `read + queued`, and afterwards the state is
STOPPED with `Tf = 0`, `read` equal to the old `read + queued`,
`pos0 = read` and `queued = 0` (the underrun handler ran). -/
theorem get_stream_usecs_underrun (s : TI) (now : ℤ)
    (hst : s.state = ROLLING)
    (h : read_pointer s ≤ s.pos0 + ⌊s.Tf * ((max (now - s.t0) 0 : ℤ) : ℚ)⌋) :
    get_stream_usecs now s =
      (read_pointer s,
       { state := STOPPED, Tf := 0, t0 := s.t0, pos0 := read_pointer s,
         read := read_pointer s, queued := 0, latency := s.latency,
         last := read_pointer s, now_last := now }) := by
  have hcond : read_pointer s ≤
      s.pos0 + Int.tdiv (max (s.Tf.num * (now - s.t0)) 0) (s.Tf.den : ℤ) :=
    le_trans h (add_le_add_left (floor_le_tdiv s.Tf (now - s.t0)) _)
  obtain ⟨st, Tf, t0, pos0, read, queued, lat, last, nl⟩ := s
  subst hst
  simp only [read_pointer] at hcond ⊢
  simp [get_stream_usecs, err_underrun, read_pointer, hcond]

/-- Claim C4, witnessed (scenario S4): on the state after S1, querying at
wall time 10 000 000 returns `read + queued = 20000` and stops the clock
with `Tf = 0`. -/
theorem get_stream_usecs_underrun_witness :
    get_stream_usecs 10000000 afterS1 =
      (read_pointer afterS1,
       { state := STOPPED, Tf := 0, t0 := afterS1.t0,
         pos0 := read_pointer afterS1, read := read_pointer afterS1,
         queued := 0, latency := afterS1.latency,
         last := read_pointer afterS1, now_last := 10000000 }) := by
  refine get_stream_usecs_underrun afterS1 10000000 (by decide) ?_
  have h1 : afterS1.Tf = 1 := by decide
  have h2 : afterS1.pos0 = -30000 := by decide
  have h3 : afterS1.t0 = 0 := by decide
  have h4 : read_pointer afterS1 = 20000 := by decide
  rw [h1, h2, h3, h4]
  norm_num

/-- Claim C3 (amended): after any `post_buffer` that does not take the
aggregation path, either `Tf ∈ [0.5, 2.0]`, or the in-call underrun check
fired, in which case `Tf = 0` and the state is STOPPED. -/
theorem post_buffer_Tf_bounds (s : TI) (now f : ℤ)
    (h : ¬ takes_aggregation now f s) :
    ((1 : ℚ)/2 ≤ (post_buffer now f s).Tf ∧ (post_buffer now f s).Tf ≤ 2) ∨
    ((post_buffer now f s).Tf = 0 ∧ (post_buffer now f s).state = STOPPED) := by
  obtain ⟨st, Tf, t0, pos0, read, queued, lat, last, nl⟩ := s
  by_cases hst : st = STOPPED
  · subst hst
    left
    simp [post_buffer]
    norm_num
  · have hdt : ¬ (now - t0 < cppDiv f 4) := fun hh => h ⟨hst, hh⟩
    simp only [post_buffer, hst, if_false, hdt, and_false, reduceIte]
    split
    · -- `set_Tf_to_unity` cycle: the raw factor is 1, clamps do nothing
      simp only [if_neg (by decide : ¬ (2 : ℚ) ≤ 1),
        if_neg (by decide : ¬ (1 : ℚ) < half)]
      split
      · right
        simp [err_underrun]
      · left
        constructor <;> norm_num
    · -- ROLLING entry: the raw factor is `Tf_raw`
      split
      · -- overrun clamp: Tf = 2, then possibly underrun
        split
        · right
          simp [err_underrun]
        · left
          simp [err_overrun]
          norm_num
      · split
        · -- bottom clamp: Tf = 1/2, then possibly underrun
          split
          · right
            simp [err_underrun]
          · left
            simp [half_eq]
            norm_num
        · -- no clamp: 1/2 ≤ Tf < 2, then possibly underrun
          rename_i h2 hhalf
          split
          · right
            simp [err_underrun]
          · left
            constructor
            · rw [← half_eq]
              exact le_of_not_lt hhalf
            · exact le_of_lt (lt_of_not_le h2)

/-- Claim C3, witnessed on a PAUSED entry (no aggregation): resuming from
the paused state after S1 with `post_buffer(20000)` 40 000 µs later keeps
`Tf` in bounds (the `set_Tf_to_unity` cycle yields `Tf = 1`). -/
theorem post_buffer_Tf_bounds_witness :
    ((1 : ℚ)/2 ≤ (post_buffer 40000 20000 (pause false 20000 afterS1)).Tf ∧
      (post_buffer 40000 20000 (pause false 20000 afterS1)).Tf ≤ 2) ∨
    ((post_buffer 40000 20000 (pause false 20000 afterS1)).Tf = 0 ∧
      (post_buffer 40000 20000 (pause false 20000 afterS1)).state = STOPPED) :=
  post_buffer_Tf_bounds (pause false 20000 afterS1) 40000 20000 (by decide)

/-- Claim C3, counterexample: the second `post_buffer` of this reachable
trace (latency 100 000, cold start, then a post 10^9 µs later) does not
aggregate, yet the in-call underrun handler leaves `Tf = 0 ∉ [0.5, 2.0]`. -/
theorem post_buffer_Tf_bounds_counterexample :
    ¬ takes_aggregation 1000000000 20000 afterS1 ∧
    (post_buffer 1000000000 20000 afterS1).Tf = 0 ∧
    ¬ ((1 : ℚ)/2 ≤ (post_buffer 1000000000 20000 afterS1).Tf) := by
  refine ⟨by decide, by decide, ?_⟩
  have h0 : (post_buffer 1000000000 20000 afterS1).Tf = 0 := by decide
  rw [h0]
  norm_num

/-- Claim C1 (amended): a ROLLING `post_buffer(f)` off the aggregation
path (so `set_Tf_to_unity` is false), when the raw factor stays below the
overrun clamp and `pos1` stays below the updated read pointer, performs
exactly: `read += queued`; `pos0 = pos1 = trunc(pos0 + Tf·(now − t0))`;
`t0 = now`; `queued = f`; and `Tf` becomes `1 − e/latency` (with
`e = pos1 − (read − latency)` for the updated `read`), clamped from below
at `1/2`.  The second and third conjuncts spell out `Tf_raw` and `err_of`
in the claim's terms. -/
theorem post_buffer_feedback_update (s : TI) (now f : ℤ)
    (hst : s.state = ROLLING)
    (hlat : 0 < s.latency)
    (hagg : ¬ now - s.t0 < cppDiv f 4)
    (hov : Tf_raw now s < 2)
    (hur : pos1_of now s < s.read + s.queued) :
    post_buffer now f s =
      { state := ROLLING,
        Tf := if Tf_raw now s < 1/2 then 1/2 else Tf_raw now s,
        t0 := now, pos0 := pos1_of now s, read := s.read + s.queued,
        queued := f, latency := s.latency, last := s.last,
        now_last := s.now_last } ∧
    Tf_raw now s = 1 - ((err_of now s : ℤ) : ℚ) / ((s.latency : ℤ) : ℚ) ∧
    err_of now s = pos1_of now s - (s.read + s.queued - s.latency) := by
  refine ⟨?_, ?_, rfl⟩
  · obtain ⟨st, Tf, t0, pos0, read, queued, lat, last, nl⟩ := s
    subst hst
    simp only [post_buffer, reduceCtorEq, if_false, hagg, and_false,
      reduceIte, if_neg (not_le.mpr hov), half_eq]
    split
    · rw [if_neg (not_le.mpr hur)]
    · rw [if_neg (not_le.mpr hur)]
  · rw [Tf_raw, Rat.divInt_eq_div]
    have hne : ((s.latency : ℤ) : ℚ) ≠ 0 := by
      exact_mod_cast ne_of_gt hlat
    push_cast
    field_simp

/-- Claim C1, witnessed on the (corrected) S2 scenario: the theorem applied
to the state after S1 at wall time 20 000 with `post_buffer(20000)`. -/
theorem post_buffer_feedback_update_witness :
    post_buffer 20000 20000 afterS1 =
      { state := ROLLING,
        Tf := if Tf_raw 20000 afterS1 < 1/2 then 1/2 else Tf_raw 20000 afterS1,
        t0 := 20000, pos0 := pos1_of 20000 afterS1,
        read := afterS1.read + afterS1.queued, queued := 20000,
        latency := afterS1.latency, last := afterS1.last,
        now_last := afterS1.now_last } ∧
    Tf_raw 20000 afterS1 =
      1 - ((err_of 20000 afterS1 : ℤ) : ℚ) / ((afterS1.latency : ℤ) : ℚ) ∧
    err_of 20000 afterS1 =
      pos1_of 20000 afterS1 - (afterS1.read + afterS1.queued - afterS1.latency) :=
  post_buffer_feedback_update afterS1 20000 20000 (by decide) (by decide)
    (by decide) (by decide) (by decide)

/-- Claim C1, counterexample to the claimed S2 outcome: in the S2 scenario
the code leaves `read = 20000` (the cold start had set `queued = 0`, so
`read += queued` adds nothing), not `read = 40000` as claimed; `pos0` is
`-10000` and `Tf` ends at `1/2` only via the bottom clamp (the raw factor
is `3/10`). -/
theorem s2_scenario_counterexample :
    afterS1.state = ROLLING ∧
    ¬ takes_aggregation 20000 20000 afterS1 ∧
    (post_buffer 20000 20000 afterS1).read = 20000 ∧
    ¬ (post_buffer 20000 20000 afterS1).read = 40000 ∧
    (post_buffer 20000 20000 afterS1).pos0 = -10000 ∧
    (post_buffer 20000 20000 afterS1).Tf = half ∧
    Tf_raw 20000 afterS1 = Rat.divInt 3 10 := by
  decide

end TimeInterpolator
